import Mathlib

/-!
Shallow embedding of the fastapi-ussd-wallet-service loan/ledger core.

Conventions of the embedding:
* SQLAlchemy rows become Lean structures; the database session becomes an
  explicit `DB` record of lists, threaded through every operation.
* Python `float` money amounts are modelled as exact rationals (`ℚ`); the
  claims under verification are about branch structure and field-level
  arithmetic, not binary rounding.  `credit_score` is an `Int`.
* Python datetime fields (`application_date`, `due_date`, ...) are wall-clock
  effects that no verified claim mentions; they are omitted from the record
  types.  Where a date gates behaviour (the overdue sweep) the comparison is
  abstracted into a boolean predicate parameter.
* A Python `raise` caught by the service's own `except`+`rollback` is
  modelled by returning the input state unchanged together with an error
  value; operations have type `DB → ... → DB × Except LoanError α`.
* String formatting of numbers (Python `f"{x:,.0f}"`) is abstracted to
  `toString`; no claim constrains those message fragments.
-/

namespace UssdWallet

/-- Loan status strings from `src/schemas/loan.py` (`LoanStatus`). -/
inductive LoanStatus
  | pending
  | approved
  | rejected
  | disbursed
  | repaid
  | defaulted
deriving DecidableEq, Repr

/-- The string stored in the `status` column for each status value. -/
def LoanStatus.text : LoanStatus → String
  | .pending => "pending"
  | .approved => "approved"
  | .rejected => "rejected"
  | .disbursed => "disbursed"
  | .repaid => "repaid"
  | .defaulted => "defaulted"

/-- `User` row, `src/db/models/user.py`.  Column defaults:
`credit_score = 300`, `is_active = True`.  Name/national-id columns are
nullable metadata no claim mentions and are omitted. -/
structure User where
  id : Nat
  phoneNumber : String
  creditScore : Int
  isActive : Bool
deriving DecidableEq, Repr

/-- `Wallet` row, `src/db/models/wallet.py`.  Column defaults:
`available_balance = 0.0`, `loan_balance = 0.0`, `total_loan_limit = 50000.0`,
`current_loan_limit = 5000.0`. -/
structure Wallet where
  userId : Nat
  availableBalance : ℚ
  loanBalance : ℚ
  totalLoanLimit : ℚ
  currentLoanLimit : ℚ
deriving DecidableEq, Repr

/-- `Loan` row, `src/db/models/loan.py` (datetime columns omitted). -/
structure Loan where
  id : Nat
  userId : Nat
  amount : ℚ
  termDays : Nat
  interestRate : ℚ
  purpose : String
  status : LoanStatus
  amountDue : ℚ
deriving DecidableEq, Repr

/-- `Transaction` row, `src/db/models/transaction.py` (timestamps omitted). -/
structure Transaction where
  userId : Nat
  loanId : Option Nat
  type : String
  amount : ℚ
  mpesaReceipt : Option String
  mpesaPhone : Option String
  checkoutRequestId : Option String
  status : String
  description : String
  errorMessage : Option String
deriving DecidableEq, Repr

/-- The relational state: one list per table, plus counters standing in for
uuid generation of primary keys. -/
structure DB where
  users : List User
  wallets : List Wallet
  loans : List Loan
  transactions : List Transaction
  nextUserId : Nat
  nextLoanId : Nat
deriving DecidableEq, Repr

/-- The empty database (fresh deployment, no rows). -/
def DB.init : DB := ⟨[], [], [], [], 0, 0⟩

/-- `db.query(User).filter(User.id == user_id).first()` -/
def DB.findUser (db : DB) (userId : Nat) : Option User :=
  db.users.find? (fun u => u.id == userId)

/-- `db.query(User).filter(User.phone_number == phone_number).first()`
(`UserService.get_user_by_phone`, `src/services/user_service.py`). -/
def DB.findUserByPhone (db : DB) (phone : String) : Option User :=
  db.users.find? (fun u => u.phoneNumber == phone)

/-- `db.query(Wallet).filter(Wallet.user_id == user_id).first()` -/
def DB.findWallet (db : DB) (userId : Nat) : Option Wallet :=
  db.wallets.find? (fun w => w.userId == userId)

/-- `db.query(Loan).filter(Loan.id == loan_id).first()` -/
def DB.findLoan (db : DB) (loanId : Nat) : Option Loan :=
  db.loans.find? (fun l => l.id == loanId)

/-- ORM mutation of the row returned by `.first()`: rewrite the first list
element satisfying `p` (primary keys are unique in the real database, so the
first match is the row the ORM object denotes). -/
def updateFirst (p : α → Bool) (f : α → α) : List α → List α
  | [] => []
  | x :: xs => if p x then f x :: xs else x :: updateFirst p f xs

/-- Loans counted by `LoanService.check_eligibility`'s active-loan query:
`status IN (PENDING, APPROVED, DISBURSED)`. -/
def LoanStatus.isActive : LoanStatus → Bool
  | .pending => true
  | .approved => true
  | .disbursed => true
  | _ => false

/-- The `count()` of the active-loans query in
`LoanService.check_eligibility` (src/services/loan_service.py:90-99). -/
def activeLoanCount (db : DB) (userId : Nat) : Nat :=
  (db.loans.filter (fun l => l.userId == userId && l.status.isActive)).length

/-- Error values for the `ValueError`s raised by `LoanService`
(the spec's §7 taxonomy names the non-permitted-status rejection
`InvalidTransitionError` and the eligibility rejection `IneligibleError`;
the source raises `ValueError` with the corresponding message). -/
inductive LoanError
  | notFound (what : String)
  | invalidTransition (op : String) (st : LoanStatus)
  | ineligible (reason : String)
deriving DecidableEq, Repr

/-- Result dictionary of `LoanService.check_eligibility`. -/
inductive EligibilityResult
  | ineligible (reason : String)
  | eligible (maxAmount : ℚ)
deriving DecidableEq, Repr

/-- `LoanService.check_eligibility` (src/services/loan_service.py:67-108).
Rules in source order: user/wallet lookup, `requested_amount <= 0`,
`requested_amount > wallet.current_loan_limit`, `user.credit_score < 300`,
active-loan count. -/
def check_eligibility (db : DB) (userId : Nat) (requestedAmount : ℚ) :
    EligibilityResult :=
  match db.findUser userId, db.findWallet userId with
  | some user, some wallet =>
    if requestedAmount ≤ 0 then
      .ineligible "Invalid amount"
    else if wallet.currentLoanLimit < requestedAmount then
      .ineligible ("Amount exceeds limit of KES " ++ toString wallet.currentLoanLimit)
    else if user.creditScore < 300 then
      .ineligible "Low credit score"
    else if 0 < activeLoanCount db userId then
      .ineligible "You have an active loan"
    else
      .eligible wallet.currentLoanLimit
  | _, _ => .ineligible "User not found"

/-- `LoanService.create_loan_application`
(src/services/loan_service.py:110-167).  On an ineligible result the source
raises `ValueError(reason)` and rolls back; modelled as the unchanged state
with `.error (.ineligible reason)`.  Interest is flat 15%:
`amount_due = amount + amount * (15 / 100)`. -/
def create_loan_application (db : DB) (userId : Nat) (amount : ℚ)
    (termDays : Nat) (purpose : String) : DB × Except LoanError Loan :=
  match check_eligibility db userId amount with
  | .ineligible reason => (db, .error (.ineligible reason))
  | .eligible _ =>
    let interestRate : ℚ := 15
    let interestAmount := amount * (interestRate / 100)
    let amountDue := amount + interestAmount
    let loan : Loan :=
      { id := db.nextLoanId, userId := userId, amount := amount
        termDays := termDays, interestRate := interestRate, purpose := purpose
        status := .pending, amountDue := amountDue }
    let txn : Transaction :=
      { userId := userId, loanId := some loan.id, type := "application"
        amount := amount, mpesaReceipt := none, mpesaPhone := none
        checkoutRequestId := none, status := "pending"
        description := "Loan application for " ++ purpose, errorMessage := none }
    ({ db with
        loans := db.loans ++ [loan]
        transactions := db.transactions ++ [txn]
        nextLoanId := db.nextLoanId + 1 }, .ok loan)

/-- `LoanService.approve_loan` (src/services/loan_service.py:169-201).
Requires status PENDING; also flips the first `application` transaction of
the loan to status `"approved"` when present. -/
def approve_loan (db : DB) (loanId : Nat) : DB × Except LoanError Loan :=
  match db.findLoan loanId with
  | none => (db, .error (.notFound "Loan"))
  | some loan =>
    if loan.status = .pending then
      let loan1 := { loan with status := .approved }
      let db1 :=
        { db with
            loans := updateFirst (fun l => l.id == loanId)
              (fun l => { l with status := .approved }) db.loans
            transactions := updateFirst
              (fun t => t.loanId == some loanId && t.type == "application")
              (fun t => { t with status := "approved" }) db.transactions }
      (db1, .ok loan1)
    else
      (db, .error (.invalidTransition "approve" loan.status))

/-- The completed `disbursement` transaction row appended by
`LoanService.disburse_loan`. -/
def disbursementTxn (loan : Loan) (mpesaReceipt : Option String) : Transaction :=
  { userId := loan.userId, loanId := some loan.id, type := "disbursement"
    amount := loan.amount, mpesaReceipt := mpesaReceipt, mpesaPhone := none
    checkoutRequestId := none, status := "completed"
    description := "Loan disbursement - " ++ loan.purpose, errorMessage := none }

/-- `LoanService.disburse_loan` (src/services/loan_service.py:203-250).
Requires status APPROVED; in one commit: status → DISBURSED,
`available_balance += amount`, `loan_balance += amount_due`,
`current_loan_limit -= amount`, append completed disbursement transaction. -/
def disburse_loan (db : DB) (loanId : Nat) (mpesaReceipt : Option String) :
    DB × Except LoanError Loan :=
  match db.findLoan loanId with
  | none => (db, .error (.notFound "Loan"))
  | some loan =>
    if loan.status = .approved then
      match db.findWallet loan.userId with
      | none => (db, .error (.notFound "Wallet"))
      | some _ =>
        let loan1 := { loan with status := .disbursed }
        let db1 :=
          { db with
              loans := updateFirst (fun l => l.id == loanId)
                (fun l => { l with status := .disbursed }) db.loans
              wallets := updateFirst (fun w => w.userId == loan.userId)
                (fun w =>
                  { w with
                      availableBalance := w.availableBalance + loan.amount
                      loanBalance := w.loanBalance + loan.amountDue
                      currentLoanLimit := w.currentLoanLimit - loan.amount })
                db.wallets
              transactions := db.transactions ++ [disbursementTxn loan mpesaReceipt] }
        (db1, .ok loan1)
    else
      (db, .error (.invalidTransition "disburse" loan.status))

/-- `LoanService.approve_and_disburse_loan`
(src/services/loan_service.py:252-332).  Requires status `"pending"`; sets
`"approved"` then immediately `"disbursed"` in the same commit (net status
write: DISBURSED), applies the same wallet mutation as `disburse_loan`, flips
the application transaction to `"approved"`, and appends the disbursement
transaction.  The SMS side effect is external and not modelled. -/
def approve_and_disburse_loan (db : DB) (loanId : Nat)
    (mpesaReceipt : Option String) : DB × Except LoanError Loan :=
  match db.findLoan loanId with
  | none => (db, .error (.notFound "Loan"))
  | some loan =>
    if loan.status = .pending then
      match db.findWallet loan.userId with
      | none => (db, .error (.notFound "Wallet"))
      | some _ =>
        let loan1 := { loan with status := .disbursed }
        let db1 :=
          { db with
              loans := updateFirst (fun l => l.id == loanId)
                (fun l => { l with status := .disbursed }) db.loans
              wallets := updateFirst (fun w => w.userId == loan.userId)
                (fun w =>
                  { w with
                      availableBalance := w.availableBalance + loan.amount
                      loanBalance := w.loanBalance + loan.amountDue
                      currentLoanLimit := w.currentLoanLimit - loan.amount })
                db.wallets
              transactions :=
                (updateFirst
                  (fun t => t.loanId == some loanId && t.type == "application")
                  (fun t => { t with status := "approved" }) db.transactions)
                ++ [disbursementTxn loan mpesaReceipt] }
        (db1, .ok loan1)
    else
      (db, .error (.invalidTransition "approve" loan.status))

/-- `LoanService.get_active_loan` (src/services/loan_service.py:334-344):
first loan of the user with status DISBURSED. -/
def get_active_loan (db : DB) (userId : Nat) : Option Loan :=
  db.loans.find? (fun l => l.userId == userId && decide (l.status = .disbursed))

/-- Result dictionary of `LoanService.record_repayment`.  The exception
branch returns `{"success": False, "message": ...}` with no `remaining` /
`fully_repaid` keys, modelled as `none`. -/
structure RepaymentOutcome where
  success : Bool
  message : String
  remaining : Option ℚ
  fullyRepaid : Option Bool
deriving DecidableEq, Repr

/-- The completed `repayment` transaction row appended by
`LoanService.record_repayment` (added before the full/partial branch). -/
def repaymentTxn (loan : Loan) (amount : ℚ) (mpesaReceipt phoneNumber : String) :
    Transaction :=
  { userId := loan.userId, loanId := some loan.id, type := "repayment"
    amount := amount, mpesaReceipt := some mpesaReceipt
    mpesaPhone := some phoneNumber, checkoutRequestId := none
    status := "completed", description := "Loan repayment via M-Pesa"
    errorMessage := none }

/-- `LoanService.record_repayment` (src/services/loan_service.py:360-430).
Requires status DISBURSED; `remaining = amount_due - amount`.
If `remaining ≤ 0`: status → REPAID, `amount_due = 0`, `loan_balance = 0`
(assignment), `current_loan_limit += loan.amount`,
`credit_score = min(credit_score + 50, 850)` when the user row exists.
Else: `amount_due = remaining`, `loan_balance -= amount`.  The repayment
transaction is appended on both branches; internal `ValueError`s are caught
and returned as `success = false` after rollback. -/
def record_repayment (db : DB) (loanId : Nat) (amount : ℚ)
    (mpesaReceipt phoneNumber : String) : DB × RepaymentOutcome :=
  match db.findLoan loanId with
  | none => (db, ⟨false, "Loan not found", none, none⟩)
  | some loan =>
    if loan.status = .disbursed then
      match db.findWallet loan.userId with
      | none => (db, ⟨false, "Wallet not found", none, none⟩)
      | some _ =>
        let remaining := loan.amountDue - amount
        let txns := db.transactions ++ [repaymentTxn loan amount mpesaReceipt phoneNumber]
        if remaining ≤ 0 then
          let db1 :=
            { db with
                loans := updateFirst (fun l => l.id == loanId)
                  (fun l => { l with status := .repaid, amountDue := 0 }) db.loans
                wallets := updateFirst (fun w => w.userId == loan.userId)
                  (fun w =>
                    { w with
                        loanBalance := 0
                        currentLoanLimit := w.currentLoanLimit + loan.amount })
                  db.wallets
                users := updateFirst (fun u => u.id == loan.userId)
                  (fun u => { u with creditScore := min (u.creditScore + 50) 850 })
                  db.users
                transactions := txns }
          (db1,
            ⟨true, "Loan fully repaid! KES " ++ toString amount ++ " received.",
              some remaining, some true⟩)
        else
          let db1 :=
            { db with
                loans := updateFirst (fun l => l.id == loanId)
                  (fun l => { l with amountDue := remaining }) db.loans
                wallets := updateFirst (fun w => w.userId == loan.userId)
                  (fun w => { w with loanBalance := w.loanBalance - amount })
                  db.wallets
                transactions := txns }
          (db1,
            ⟨true,
              "Payment received: KES " ++ toString amount ++ ". Remaining: KES "
                ++ toString remaining,
              some remaining, some false⟩)
    else
      (db, ⟨false, "Cannot repay loan with status: " ++ loan.status.text, none, none⟩)

/-! ## User service (`src/services/user_service.py`) -/

/-- The `Wallet` row created with all column defaults
(`Wallet(user_id=user.id)`). -/
def defaultWallet (userId : Nat) : Wallet :=
  { userId := userId, availableBalance := 0, loanBalance := 0
    totalLoanLimit := 50000, currentLoanLimit := 5000 }

/-- A `User` row created from only a phone number, with column defaults
`credit_score = 300`, `is_active = True` (`User(phone_number=...)`). -/
def newUser (id : Nat) (phone : String) : User :=
  { id := id, phoneNumber := phone, creditScore := 300, isActive := true }

/-- `UserService.create_user`: insert the user then a default wallet for it,
in one commit.  (The `UserCreate` schema carries only phone/name fields, so
the score/activity columns always take their defaults.) -/
def create_user (db : DB) (phone : String) : DB × User :=
  let u := newUser db.nextUserId phone
  ({ db with
      users := db.users ++ [u]
      wallets := db.wallets ++ [defaultWallet u.id]
      nextUserId := db.nextUserId + 1 }, u)

/-- `UserService.update_user_credit_score`: set the score of the user row
when it exists. -/
def update_user_credit_score (db : DB) (userId : Nat) (newScore : Int) : DB :=
  { db with
      users := updateFirst (fun u => u.id == userId)
        (fun u => { u with creditScore := newScore }) db.users }

/-! ## Scheduled tasks (`src/core/tasks.py`) -/

/-- `check_overdue_loans` (src/core/tasks.py): every DISBURSED loan past due
becomes DEFAULTED.  The `due_date < now` comparison is abstracted into the
predicate `isOverdue`; wallet balances are not touched. -/
def check_overdue_loans (db : DB) (isOverdue : Loan → Bool) : DB :=
  { db with
      loans := db.loans.map (fun l =>
        if decide (l.status = .disbursed) && isOverdue l then
          { l with status := .defaulted }
        else l) }

/-! ## USSD service (`src/services/ussd_service.py`) -/

/-- `USSDService._get_or_create_user`: look the user up by phone; when absent
insert a `User(phone_number=...)` row and a `Wallet(user_id=...)` row with
all column defaults, in one commit. -/
def get_or_create_user (db : DB) (phone : String) : DB × User :=
  match db.findUserByPhone phone with
  | some u => (db, u)
  | none =>
    let u := newUser db.nextUserId phone
    ({ db with
        users := db.users ++ [u]
        wallets := db.wallets ++ [defaultWallet u.id]
        nextUserId := db.nextUserId + 1 }, u)

/-- Python `float(s)` over USSD input, restricted to the nonnegative integer
numerals that the claims exercise; any other string fails to parse
(`ValueError` at the call site). -/
def parseAmount (s : String) : Option ℚ :=
  (s.toNat?).map (fun n => (n : ℚ))

/-- Outcome of `MPESAService.initiate_stk_push` as observed by the USSD
handler: the network interaction itself is an external effect, so the
gateway's answer is an oracle parameter of the session step.  Neither
outcome writes to the database (the source method performs HTTP only). -/
inductive StkResult
  | ok (checkoutRequestId : String)
  | failed (message : String)
deriving DecidableEq, Repr

/-- `USSDService._show_main_menu`. -/
def show_main_menu : String :=
  "Welcome to Umoja Loans\n1. Apply for Loan\n2. Check Loan Status\n3. Repay Loan\n4. Transaction History\n5. Wallet Balance"

/-- Purpose menu mapping of `_handle_loan_application` level 3. -/
def purposeOf (choice : String) : String :=
  if choice == "1" then "Emergency"
  else if choice == "2" then "Business"
  else if choice == "3" then "Education"
  else if choice == "4" then "Personal"
  else "General"

/-- `USSDService._handle_loan_application` (src/services/ussd_service.py:102-211).
Level 1 prompts for an amount, level 2 validates it and prompts for a
purpose, level 3 calls `LoanService.create_loan_application`.  Message texts
involving number formatting are abbreviated via `toString`. -/
def handle_loan_application (db : DB) (user : User) (inputs : List String) :
    DB × String × Bool :=
  match inputs.length with
  | 1 =>
    match db.findWallet user.id with
    | none => (db, "Wallet not found. Contact support.", true)
    | some w =>
      (db, "Apply for Loan\nAvailable: KES " ++ toString w.currentLoanLimit
        ++ "\nEnter amount:", false)
  | 2 =>
    match parseAmount (inputs.getD 1 "") with
    | none => (db, "Invalid amount.\nEnter numbers only:", false)
    | some amount =>
      if amount ≤ 0 then
        (db, "Amount must be greater than 0.\nEnter valid amount:", false)
      else
        match check_eligibility db user.id amount with
        | .ineligible reason => (db, "Sorry: " ++ reason, true)
        | .eligible _ =>
          (db, "Amount: KES " ++ toString amount
            ++ "\nSelect purpose:\n1. Emergency\n2. Business\n3. Education\n4. Personal",
            false)
  | 3 =>
    match parseAmount (inputs.getD 1 "") with
    | none => (db, "Application failed: invalid amount", true)
    | some amount =>
      let purpose := purposeOf (inputs.getD 2 "")
      match create_loan_application db user.id amount 30 purpose with
      | (db1, .ok loan) =>
        (db1, "Application Submitted!\nAmount: KES " ++ toString amount
          ++ "\nPurpose: " ++ purpose ++ "\nInterest: 15%\nTotal Due: KES "
          ++ toString loan.amountDue ++ "\nYou'll receive SMS confirmation.",
          true)
      | (db1, .error (.ineligible reason)) =>
        (db1, "Application failed: " ++ reason, true)
      | (db1, .error _) =>
        (db1, "Application failed. Please try again.", true)
  | _ => (db, "Invalid input.", true)

/-- `USSDService._handle_loan_status` (read-only). -/
def handle_loan_status (db : DB) (user : User) : String × Bool :=
  match db.loans.filter (fun l => l.userId == user.id) with
  | [] => ("No loan applications found.", true)
  | l :: _ =>
    ("Latest Loan\nAmount: KES " ++ toString l.amount ++ "\nStatus: "
      ++ l.status.text, true)

/-- `USSDService._handle_loan_repayment` (src/services/ussd_service.py:263-334).
Reads the active loan and, at level 2, asks the payment gateway for an STK
push; no branch writes to the database. -/
def handle_loan_repayment (db : DB) (user : User) (inputs : List String)
    (gw : StkResult) : String × Bool :=
  match inputs.length with
  | 1 =>
    match get_active_loan db user.id with
    | none => ("No active loan to repay.", true)
    | some l =>
      ("Loan Repayment\nLoan: KES " ++ toString l.amount ++ "\nDue: KES "
        ++ toString l.amountDue ++ "\n\nEnter amount to pay:", false)
  | 2 =>
    match parseAmount (inputs.getD 1 "") with
    | none => ("Invalid amount.\nEnter numbers only.", true)
    | some amount =>
      if amount ≤ 0 then ("Amount must be greater than 0.", true)
      else if amount < 10 then ("Minimum payment is KES 10.", true)
      else
        match get_active_loan db user.id with
        | none => ("No active loan found.", true)
        | some l =>
          if l.amountDue < amount then
            ("Amount exceeds due.\nMaximum: KES " ++ toString l.amountDue, true)
          else
            match gw with
            | .ok _ =>
              ("Payment Request Sent!\nAmount: KES " ++ toString amount
                ++ "\nCheck your phone to complete.\nEnter M-Pesa PIN to confirm.",
                true)
            | .failed msg => ("Payment Failed:\n" ++ msg, true)
  | _ => ("Invalid input.", true)

/-- `USSDService._handle_transaction_history` (read-only). -/
def handle_transaction_history (db : DB) (user : User) : String × Bool :=
  match db.transactions.filter (fun t => t.userId == user.id) with
  | [] => ("No transactions found.", true)
  | _ => ("Recent Transactions", true)

/-- `USSDService._handle_wallet_balance` (read-only). -/
def handle_wallet_balance (db : DB) (user : User) : String × Bool :=
  match db.findWallet user.id with
  | none => ("Wallet not found.", true)
  | some w =>
    ("Your Wallet\nBalance: KES " ++ toString w.availableBalance
      ++ "\nLoan Balance: KES " ++ toString w.loanBalance
      ++ "\nLoan Limit: KES " ++ toString w.currentLoanLimit
      ++ "\nCredit Score: " ++ toString user.creditScore, true)

/-- Menu routing of `USSDService.process_request` after the user lookup:
empty (stripped) text shows the main menu, otherwise the first `*`-segment
selects the handler. -/
def ussd_dispatch (db : DB) (user : User) (text : String) (gw : StkResult) :
    DB × String × Bool :=
  if text == "" then (db, show_main_menu, false)
  else if (text.splitOn "*").headD "" == "1" then
    handle_loan_application db user (text.splitOn "*")
  else if (text.splitOn "*").headD "" == "2" then
    (db, handle_loan_status db user)
  else if (text.splitOn "*").headD "" == "3" then
    (db, handle_loan_repayment db user (text.splitOn "*") gw)
  else if (text.splitOn "*").headD "" == "4" then
    (db, handle_transaction_history db user)
  else if (text.splitOn "*").headD "" == "5" then
    (db, handle_wallet_balance db user)
  else (db, "Invalid option. Please try again.", true)

/-- `USSDService.process_request` (src/services/ussd_service.py:25-64):
first `_get_or_create_user(phone_number)`, then strip the text and route to
the menu handlers. -/
def process_request (db : DB) (phoneNumber text : String) (gw : StkResult) :
    DB × String × Bool :=
  let r := get_or_create_user db phoneNumber
  ussd_dispatch r.1 r.2 text.trim gw

/-! ## M-Pesa callback (`src/services/mpesa_service.py`,
`src/api/mpesa.py`) -/

/-- A JSON value in the callback metadata `Item` list (`Value` is a number
for `Amount`, a string for `MpesaReceiptNumber`; senders may put either). -/
inductive MeVal
  | num (q : ℚ)
  | str (s : String)
deriving DecidableEq, Repr

/-- One entry of `Body.stkCallback.CallbackMetadata.Item`. -/
structure MetaItem where
  name : Option String
  value : Option MeVal
deriving DecidableEq, Repr

/-- The `Body.stkCallback` object; every field is read with `.get`, so each
is optional (a missing `Body` or `stkCallback` is the all-`none` record). -/
structure StkCallback where
  resultCode : Option Int
  checkoutRequestID : Option String
  resultDesc : Option String
  callbackMetadata : List MetaItem
deriving DecidableEq, Repr

/-- Python truthiness of an extracted metadata value
(`if amount and mpesa_receipt:`): `None`, `0` and `""` are falsy. -/
def truthy : Option MeVal → Bool
  | none => false
  | some (.num q) => decide (q ≠ 0)
  | some (.str s) => s ≠ ""

/-- The extraction loop over `CallbackMetadata.Item`: later items with the
same `Name` overwrite earlier ones, and a present `Name` with a missing
`Value` overwrites with `None`. -/
def extractMeta (items : List MetaItem) :
    Option MeVal × Option MeVal × Option MeVal :=
  items.foldl
    (fun acc it =>
      if it.name == some "Amount" then (it.value, acc.2.1, acc.2.2)
      else if it.name == some "MpesaReceiptNumber" then (acc.1, it.value, acc.2.2)
      else if it.name == some "PhoneNumber" then (acc.1, acc.2.1, it.value)
      else acc)
    (none, none, none)

/-- String comparison between a metadata `PhoneNumber` value and the
`phone_number` column in `get_user_by_phone`; a numeric JSON value never
equals a string column. -/
def phoneValMatches (v : Option MeVal) (stored : String) : Bool :=
  match v with
  | some (.str s) => s == stored
  | _ => false

/-- The Python exceptions that `MPESAService.handle_callback`'s blanket
`except` can swallow in the modelled fragment. -/
inductive PyError
  | attributeError (msg : String)
deriving DecidableEq, Repr

/-- Body of `MPESAService.handle_callback` before its `try/except`
(src/services/mpesa_service.py:116-165).  On `ResultCode == 0` it extracts
`Amount`/`MpesaReceiptNumber`/`PhoneNumber`, resolves the user by phone and
then calls `loan_service.process_loan_repayment(...)` — a method that does
not exist on `LoanService` (`src/services/loan_service.py` defines
`record_repayment` only), so reaching that call raises `AttributeError`.
No database write happens on any path before that point; the nonzero /
missing result-code branch only logs a warning.  The handler never queries
any transaction by `checkout_request_id`. -/
def handle_callback_inner (db : DB) (cb : StkCallback) : Except PyError DB :=
  if cb.resultCode = some 0 then
    let m := extractMeta cb.callbackMetadata
    let amount := m.1
    let mpesaReceipt := m.2.1
    let phoneNumber := m.2.2
    if truthy amount && truthy mpesaReceipt then
      match db.users.find? (fun u => phoneValMatches phoneNumber u.phoneNumber) with
      | some _ =>
        .error (.attributeError
          "LoanService object has no attribute process_loan_repayment")
      | none => .ok db
    else .ok db
  else
    .ok db

/-- `MPESAService.handle_callback`: the body above wrapped in a blanket
`try/except` that only logs; the Python function has no `return` statement,
so its value is `None` (second component), and an exception leaves the
session unmutated. -/
def handle_callback (db : DB) (cb : StkCallback) : DB × Option Bool :=
  match handle_callback_inner db cb with
  | .ok db1 => (db1, none)
  | .error _ => (db, none)

/-- The JSON body returned to the gateway by the callback endpoint. -/
structure MpesaAck where
  resultCode : Int
  resultDesc : String
deriving DecidableEq, Repr

/-- `handle_mpesa_callback` endpoint (src/api/mpesa.py:13-44).  `payload =
none` models a body that fails JSON parsing (the `await request.json()`
raise).  After the service call the endpoint evaluates
`result.get("success")`; since `handle_callback` returns `None`, that raises
`AttributeError` and the outer `except` answers `{"ResultCode": 0,
"ResultDesc": "Accepted"}`.  Every path acknowledges with code 0. -/
def handle_mpesa_callback (db : DB) (payload : Option StkCallback) :
    DB × MpesaAck :=
  match payload with
  | none => (db, ⟨0, "Accepted"⟩)
  | some cb =>
    let r := handle_callback db cb
    match r.2 with
    | some true => (r.1, ⟨0, "Success"⟩)
    | some false => (r.1, ⟨0, "Accepted"⟩)
    | none => (r.1, ⟨0, "Accepted"⟩)

/-! ## Concrete fixtures (used by witnesses and counterexamples) -/

/-- The spec §8 scenario user: `creditScore = 500`, active. -/
def fixtureUser : User := ⟨0, "254712345678", 500, true⟩

/-- A fresh wallet with all column defaults. -/
def fixtureWallet : Wallet := ⟨0, 0, 0, 50000, 5000⟩

/-- The §8 scenario loan (1000 at 15% over 30 days) once APPROVED. -/
def fixtureLoanApproved : Loan := ⟨0, 0, 1000, 30, 15, "Business", .approved, 1150⟩

/-- State holding the approved loan, before disbursement. -/
def fixtureDbApproved : DB :=
  ⟨[fixtureUser], [fixtureWallet], [fixtureLoanApproved], [], 1, 1⟩

/-- The scenario loan once DISBURSED. -/
def fixtureLoanDisbursed : Loan := ⟨0, 0, 1000, 30, 15, "Business", .disbursed, 1150⟩

/-- The scenario wallet after disbursement of 1000/1150. -/
def fixtureWalletAfterDisburse : Wallet := ⟨0, 1000, 1150, 50000, 4000⟩

/-- State with the disbursed loan outstanding. -/
def fixtureDbDisbursed : DB :=
  ⟨[fixtureUser], [fixtureWalletAfterDisburse], [fixtureLoanDisbursed], [], 1, 1⟩

/-- A pending repayment transaction correlated to checkout request
`"ws_CO_1"` (the row §4.5 of the spec expects the reconciler to resolve). -/
def fixturePendingTxn : Transaction :=
  ⟨0, some 0, "repayment", 500, none, some "254712345678", some "ws_CO_1",
    "pending", "STK push initiated", none⟩

/-- `fixtureDbDisbursed` extended with the pending correlated transaction. -/
def fixtureDbPendingTxn : DB :=
  ⟨[fixtureUser], [fixtureWalletAfterDisburse], [fixtureLoanDisbursed],
    [fixturePendingTxn], 1, 1⟩

/-- A well-formed successful gateway callback for 500 paid by the fixture
user (receipt `"QGH123"`). -/
def cbSuccess : StkCallback :=
  ⟨some 0, some "ws_CO_1", none,
    [⟨some "Amount", some (.num 500)⟩,
     ⟨some "MpesaReceiptNumber", some (.str "QGH123")⟩,
     ⟨some "PhoneNumber", some (.str "254712345678")⟩]⟩

/-- A gateway-failure callback (nonzero result code) for the same checkout
request. -/
def cbFailed : StkCallback :=
  ⟨some 1, some "ws_CO_1", some "Request cancelled by user", []⟩

/-! ## Reachability (for the single-active-loan invariant) -/

/-- The spec §8 invariant: every user has at most one loan in
{PENDING, APPROVED, DISBURSED}. -/
def SingleActiveInv (db : DB) : Prop :=
  ∀ uid, activeLoanCount db uid ≤ 1

/-- One state transition of the system: every database-mutating entry point
of the repository (USSD session step, loan-service operations, M-Pesa
callback paths, the overdue sweep task, and the user-service writes).
Read-only endpoints do not change the state and need no constructor. -/
inductive Step : DB → DB → Prop
  | ussd {db} (phone text : String) (gw : StkResult) :
      Step db (process_request db phone text gw).1
  | applyLoan {db} (uid : Nat) (amount : ℚ) (termDays : Nat) (purpose : String) :
      Step db (create_loan_application db uid amount termDays purpose).1
  | approve {db} (lid : Nat) : Step db (approve_loan db lid).1
  | disburse {db} (lid : Nat) (rc : Option String) :
      Step db (disburse_loan db lid rc).1
  | approveDisburse {db} (lid : Nat) (rc : Option String) :
      Step db (approve_and_disburse_loan db lid rc).1
  | repay {db} (lid : Nat) (amount : ℚ) (receipt phone : String) :
      Step db (record_repayment db lid amount receipt phone).1
  | callback {db} (cb : StkCallback) : Step db (handle_callback db cb).1
  | gatewayPost {db} (payload : Option StkCallback) :
      Step db (handle_mpesa_callback db payload).1
  | overdueSweep {db} (isOverdue : Loan → Bool) :
      Step db (check_overdue_loans db isOverdue)
  | register {db} (phone : String) : Step db (create_user db phone).1
  | rescore {db} (uid : Nat) (score : Int) :
      Step db (update_user_credit_score db uid score)

/-- States reachable from the empty database through the system's
operations. -/
inductive Reachable : DB → Prop
  | init : Reachable DB.init
  | step {db db1} : Reachable db → Step db db1 → Reachable db1

/-! ## List helper lemmas -/

/-- `updateFirst` rewrites the element that `find?` returns. -/
theorem find?_updateFirst {α} (p : α → Bool) (f : α → α) :
    ∀ (xs : List α) (x : α), xs.find? p = some x → p (f x) = true →
      (updateFirst p f xs).find? p = some (f x) := by
  intro xs
  induction xs with
  | nil => intro x hx _; simp [List.find?] at hx
  | cons a l ih =>
    intro x hx hpf
    by_cases hpa : p a = true
    · rw [List.find?_cons_of_pos _ hpa] at hx
      cases hx
      simp only [updateFirst, hpa, if_true]
      exact List.find?_cons_of_pos _ hpf
    · rw [List.find?_cons_of_neg _ (by simp [hpa])] at hx
      simp only [updateFirst, hpa, if_false, Bool.false_eq_true]
      rw [List.find?_cons_of_neg _ (by simp [hpa])]
      exact ih x hx hpf

/-- `updateFirst` leaves the list unchanged when nothing matches. -/
theorem updateFirst_of_find?_none {α} (p : α → Bool) (f : α → α) :
    ∀ xs : List α, xs.find? p = none → updateFirst p f xs = xs := by
  intro xs
  induction xs with
  | nil => intro _; rfl
  | cons a l ih =>
    intro hx
    by_cases hpa : p a = true
    · rw [List.find?_cons_of_pos _ hpa] at hx; cases hx
    · rw [List.find?_cons_of_neg _ (by simp [hpa])] at hx
      simp only [updateFirst, hpa, if_false, Bool.false_eq_true]
      rw [ih hx]

/-- Rewriting the found element cannot increase the number of elements
satisfying `q`, provided the rewrite does not turn the found element from a
non-`q` element into a `q` element. -/
theorem length_filter_updateFirst_le {α} (p q : α → Bool) (f : α → α) :
    ∀ (xs : List α) (x : α), xs.find? p = some x →
      (q (f x) = true → q x = true) →
      ((updateFirst p f xs).filter q).length ≤ (xs.filter q).length := by
  intro xs
  induction xs with
  | nil => intro x hx _; simp [List.find?] at hx
  | cons a l ih =>
    intro x hx hq
    by_cases hpa : p a = true
    · rw [List.find?_cons_of_pos _ hpa] at hx
      cases hx
      simp only [updateFirst, hpa, if_true, List.filter_cons]
      by_cases hfa : q (f a) = true
      · simp [hfa, hq hfa]
      · simp only [hfa, Bool.false_eq_true, if_false]
        by_cases hqa : q a = true <;> simp [hqa]
    · rw [List.find?_cons_of_neg _ (by simp [hpa])] at hx
      simp only [updateFirst, hpa, if_false, Bool.false_eq_true, List.filter_cons]
      by_cases hqa : q a = true <;> simp [hqa] <;> exact ih x hx hq

/-- Mapping a function that never turns a non-`q` element into a `q` element
cannot increase the `q`-count. -/
theorem length_filter_map_le {α} (q : α → Bool) (f : α → α)
    (hf : ∀ x, q (f x) = true → q x = true) :
    ∀ xs : List α, ((xs.map f).filter q).length ≤ (xs.filter q).length := by
  intro xs
  induction xs with
  | nil => simp
  | cons a l ih =>
    simp only [List.map_cons, List.filter_cons]
    by_cases hfa : q (f a) = true
    · simp [hfa, hf a hfa]; omega
    · simp only [hfa, Bool.false_eq_true, if_false]
      by_cases hqa : q a = true <;> simp [hqa] <;> omega

/-! ## Invariant preservation, operation by operation -/

/-- The invariant only reads the loans table. -/
theorem singleActiveInv_of_loans_eq {db db1 : DB} (hl : db1.loans = db.loans)
    (h : SingleActiveInv db) : SingleActiveInv db1 := by
  intro uid
  have heq : activeLoanCount db1 uid = activeLoanCount db uid := by
    unfold activeLoanCount; rw [hl]
  rw [heq]; exact h uid

theorem isActive_pending : LoanStatus.pending.isActive = true := rfl

theorem isActive_approved : LoanStatus.approved.isActive = true := rfl

theorem isActive_disbursed : LoanStatus.disbursed.isActive = true := rfl

theorem isActive_repaid : LoanStatus.repaid.isActive = false := rfl

theorem isActive_defaulted : LoanStatus.defaulted.isActive = false := rfl

/-- An eligible verdict means the active-loan query counted zero rows. -/
theorem check_eligibility_eligible {db : DB} {uid : Nat} {a m : ℚ}
    (h : check_eligibility db uid a = .eligible m) :
    activeLoanCount db uid = 0 := by
  unfold check_eligibility at h
  cases hfu : db.findUser uid with
  | none => rw [hfu] at h; simp at h
  | some u =>
    rw [hfu] at h
    cases hfw : db.findWallet uid with
    | none => rw [hfw] at h; simp at h
    | some w =>
      rw [hfw] at h
      dsimp only at h
      by_cases h1 : a ≤ 0
      · rw [if_pos h1] at h; simp at h
      rw [if_neg h1] at h
      by_cases h2 : w.currentLoanLimit < a
      · rw [if_pos h2] at h; simp at h
      rw [if_neg h2] at h
      by_cases h3 : u.creditScore < 300
      · rw [if_pos h3] at h; simp at h
      rw [if_neg h3] at h
      by_cases h4 : 0 < activeLoanCount db uid
      · rw [if_pos h4] at h; simp at h
      · omega

theorem inv_create_loan_application (db : DB) (uid : Nat) (a : ℚ) (t : Nat)
    (p : String) (h : SingleActiveInv db) :
    SingleActiveInv (create_loan_application db uid a t p).1 := by
  unfold create_loan_application
  cases he : check_eligibility db uid a with
  | ineligible r => simpa using h
  | eligible m =>
    have h0 := check_eligibility_eligible he
    intro uid1
    have hdb := h uid1
    unfold activeLoanCount at h0 hdb ⊢
    simp only [List.filter_append, List.length_append, List.filter_cons,
      List.filter_nil, isActive_pending, Bool.and_true]
    by_cases huid : uid = uid1
    · subst huid
      simp only [beq_self_eq_true, if_true, List.length_cons, List.length_nil]
      omega
    · have hne : (uid == uid1) = false := by simp [huid]
      simp only [hne, Bool.false_eq_true, if_false, List.length_nil]
      omega

theorem inv_approve_loan (db : DB) (lid : Nat) (h : SingleActiveInv db) :
    SingleActiveInv (approve_loan db lid).1 := by
  unfold approve_loan
  cases hl : db.findLoan lid with
  | none => simpa using h
  | some loan =>
    by_cases hst : loan.status = .pending
    · simp only [hst, if_true]
      intro uid
      refine le_trans ?_ (h uid)
      exact length_filter_updateFirst_le _ _ _ db.loans loan hl
        (by simp [hst, LoanStatus.isActive])
    · simp only [hst, if_false]
      simpa using h

theorem inv_disburse_loan (db : DB) (lid : Nat) (rc : Option String)
    (h : SingleActiveInv db) : SingleActiveInv (disburse_loan db lid rc).1 := by
  unfold disburse_loan
  cases hl : db.findLoan lid with
  | none => simpa using h
  | some loan =>
    by_cases hst : loan.status = .approved
    · simp only [hst, if_true]
      cases hw : db.findWallet loan.userId with
      | none => simpa using h
      | some w =>
        intro uid
        refine le_trans ?_ (h uid)
        exact length_filter_updateFirst_le _ _ _ db.loans loan hl
          (by simp [hst, LoanStatus.isActive])
    · simp only [hst, if_false]
      simpa using h

theorem inv_approve_and_disburse_loan (db : DB) (lid : Nat) (rc : Option String)
    (h : SingleActiveInv db) :
    SingleActiveInv (approve_and_disburse_loan db lid rc).1 := by
  unfold approve_and_disburse_loan
  cases hl : db.findLoan lid with
  | none => simpa using h
  | some loan =>
    by_cases hst : loan.status = .pending
    · simp only [hst, if_true]
      cases hw : db.findWallet loan.userId with
      | none => simpa using h
      | some w =>
        intro uid
        refine le_trans ?_ (h uid)
        exact length_filter_updateFirst_le _ _ _ db.loans loan hl
          (by simp [hst, LoanStatus.isActive])
    · simp only [hst, if_false]
      simpa using h

theorem inv_record_repayment (db : DB) (lid : Nat) (a : ℚ) (rcpt phone : String)
    (h : SingleActiveInv db) :
    SingleActiveInv (record_repayment db lid a rcpt phone).1 := by
  unfold record_repayment
  cases hl : db.findLoan lid with
  | none => simpa using h
  | some loan =>
    by_cases hst : loan.status = .disbursed
    · simp only [hst, if_true]
      cases hw : db.findWallet loan.userId with
      | none => simpa using h
      | some w =>
        by_cases hrem : loan.amountDue - a ≤ 0
        · simp only [hrem, if_true]
          intro uid
          refine le_trans ?_ (h uid)
          exact length_filter_updateFirst_le _ _ _ db.loans loan hl
            (by simp [LoanStatus.isActive])
        · simp only [hrem, if_false]
          intro uid
          refine le_trans ?_ (h uid)
          exact length_filter_updateFirst_le _ _ _ db.loans loan hl
            (by simp [hst, LoanStatus.isActive])
    · simp only [hst, if_false]
      simpa using h

theorem inv_check_overdue_loans (db : DB) (isOverdue : Loan → Bool)
    (h : SingleActiveInv db) :
    SingleActiveInv (check_overdue_loans db isOverdue) := by
  unfold check_overdue_loans
  intro uid
  refine le_trans ?_ (h uid)
  refine length_filter_map_le _ _ ?_ db.loans
  intro x hx
  by_cases hc : (decide (x.status = .disbursed) && isOverdue x) = true
  · rw [hc] at hx; simp [LoanStatus.isActive] at hx
  · rw [if_neg (by simpa using hc)] at hx; exact hx

/-- `MPESAService.handle_callback` never changes the database: every branch
either performs only reads or dies on the `AttributeError` swallowed by the
blanket `except`. -/
theorem handle_callback_state (db : DB) (cb : StkCallback) :
    (handle_callback db cb).1 = db := by
  unfold handle_callback handle_callback_inner
  by_cases h0 : cb.resultCode = some 0
  · simp only [h0, if_true]
    by_cases h1 : (truthy (extractMeta cb.callbackMetadata).1
        && truthy (extractMeta cb.callbackMetadata).2.1) = true
    · simp only [h1, if_true]
      cases hfind : db.users.find?
          (fun u => phoneValMatches (extractMeta cb.callbackMetadata).2.2 u.phoneNumber) <;>
        simp [hfind]
    · simp [h1]
  · simp [h0]

/-- The callback endpoint's state is the service call's state. -/
theorem handle_mpesa_callback_state (db : DB) (payload : Option StkCallback) :
    (handle_mpesa_callback db payload).1 = db := by
  unfold handle_mpesa_callback
  cases payload with
  | none => rfl
  | some cb =>
    have h2 : (handle_callback db cb).2 = none := by
      unfold handle_callback
      cases handle_callback_inner db cb <;> rfl
    simp only [h2]
    exact handle_callback_state db cb

/-- The USSD loan-application handler either leaves the state unchanged or
delegates the write to `create_loan_application`. -/
theorem handle_loan_application_state (db : DB) (user : User)
    (inputs : List String) :
    (handle_loan_application db user inputs).1 = db ∨
    ∃ a p, (handle_loan_application db user inputs).1 =
      (create_loan_application db user.id a 30 p).1 := by
  unfold handle_loan_application
  split
  · split <;> exact Or.inl rfl
  · split
    · exact Or.inl rfl
    · split
      · exact Or.inl rfl
      · split <;> exact Or.inl rfl
  · split
    · exact Or.inl rfl
    · next a hp =>
      right
      refine ⟨a, purposeOf (inputs.getD 2 ""), ?_⟩
      dsimp only
      rcases hc : create_loan_application db user.id a 30 (purposeOf (inputs.getD 2 "")) with ⟨db1, res⟩
      cases res with
      | ok loan => rfl
      | error e => cases e <;> rfl
  · exact Or.inl rfl

theorem get_or_create_user_loans (db : DB) (phone : String) :
    (get_or_create_user db phone).1.loans = db.loans := by
  unfold get_or_create_user
  cases h : db.findUserByPhone phone <;> simp [h]

theorem inv_ussd_dispatch (db : DB) (user : User) (text : String)
    (gw : StkResult) (h : SingleActiveInv db) :
    SingleActiveInv (ussd_dispatch db user text gw).1 := by
  unfold ussd_dispatch
  split_ifs with h0 h1 h2 h3 h4 h5
  · exact h
  · rcases handle_loan_application_state db user (text.splitOn "*") with hs | ⟨a, p, hs⟩
    · exact singleActiveInv_of_loans_eq (by rw [hs]) h
    · rw [hs]
      exact inv_create_loan_application db user.id a 30 p h
  · exact h
  · exact h
  · exact h
  · exact h
  · exact h

theorem inv_process_request (db : DB) (phone text : String) (gw : StkResult)
    (h : SingleActiveInv db) :
    SingleActiveInv (process_request db phone text gw).1 := by
  unfold process_request
  exact inv_ussd_dispatch _ _ _ _
    (singleActiveInv_of_loans_eq (get_or_create_user_loans db phone) h)

/-- C4: in every reachable state every user has at most one loan in
{PENDING, APPROVED, DISBURSED}: `create_loan_application` refuses while an
active loan exists (the "You have an active loan" rule), and no other
operation inserts a loan row. -/
theorem single_active_loan_invariant (db : DB) (h : Reachable db) (uid : Nat) :
    activeLoanCount db uid ≤ 1 := by
  suffices hinv : SingleActiveInv db from hinv uid
  clear uid
  induction h with
  | init => intro u; simp [DB.init, activeLoanCount]
  | step hr hs ih =>
    cases hs with
    | ussd phone text gw => exact inv_process_request _ _ _ _ ih
    | applyLoan uid1 a t p => exact inv_create_loan_application _ _ _ _ _ ih
    | approve lid => exact inv_approve_loan _ _ ih
    | disburse lid rc => exact inv_disburse_loan _ _ _ ih
    | approveDisburse lid rc => exact inv_approve_and_disburse_loan _ _ _ ih
    | repay lid a r p => exact inv_record_repayment _ _ _ _ _ ih
    | callback cb =>
      exact singleActiveInv_of_loans_eq (by rw [handle_callback_state]) ih
    | gatewayPost payload =>
      exact singleActiveInv_of_loans_eq (by rw [handle_mpesa_callback_state]) ih
    | overdueSweep ov => exact inv_check_overdue_loans _ _ ih
    | register phone => exact singleActiveInv_of_loans_eq rfl ih
    | rescore uid1 s => exact singleActiveInv_of_loans_eq rfl ih

/-- Witness for C4: the invariant instantiated at a concrete reachable state
(one USSD contact creating a fresh user, then its loan application). -/
theorem single_active_loan_invariant_witness :
    Reachable (process_request DB.init "254712345678" "1*1000*2" (StkResult.failed "x")).1 ∧
    activeLoanCount (process_request DB.init "254712345678" "1*1000*2" (StkResult.failed "x")).1 0 ≤ 1 := by
  have hr : Reachable (process_request DB.init "254712345678" "1*1000*2" (StkResult.failed "x")).1 :=
    Reachable.step Reachable.init (Step.ussd "254712345678" "1*1000*2" (StkResult.failed "x"))
  exact ⟨hr, single_active_loan_invariant _ hr 0⟩

/-! ## Characterizations of the money-moving operations -/

/-- What `disburse_loan` does on an APPROVED loan. -/
theorem disburse_loan_approved_eq (db : DB) (lid : Nat) (rc : Option String)
    (l : Loan) (w : Wallet) (hl : db.findLoan lid = some l)
    (hst : l.status = .approved) (hw : db.findWallet l.userId = some w) :
    disburse_loan db lid rc =
      ({ db with
          loans := updateFirst (fun x => x.id == lid)
            (fun x => { x with status := .disbursed }) db.loans
          wallets := updateFirst (fun x => x.userId == l.userId)
            (fun x =>
              { x with
                  availableBalance := x.availableBalance + l.amount
                  loanBalance := x.loanBalance + l.amountDue
                  currentLoanLimit := x.currentLoanLimit - l.amount })
            db.wallets
          transactions := db.transactions ++ [disbursementTxn l rc] },
        .ok { l with status := .disbursed }) := by
  unfold disburse_loan
  rw [hl]
  dsimp only
  rw [if_pos hst, hw]

/-- `disburse_loan` on a loan whose status is not APPROVED: rollback and the
invalid-transition `ValueError`. -/
theorem disburse_loan_not_approved (db : DB) (lid : Nat) (rc : Option String)
    (l : Loan) (hl : db.findLoan lid = some l) (hst : ¬ l.status = .approved) :
    disburse_loan db lid rc
      = (db, .error (.invalidTransition "disburse" l.status)) := by
  unfold disburse_loan
  rw [hl]
  dsimp only
  rw [if_neg hst]

/-- What `record_repayment` does on a DISBURSED loan when the payment covers
the whole `amount_due`. -/
theorem record_repayment_full_eq (db : DB) (lid : Nat) (a : ℚ)
    (rcpt phone : String) (l : Loan) (w : Wallet)
    (hl : db.findLoan lid = some l) (hst : l.status = .disbursed)
    (hw : db.findWallet l.userId = some w) (hrem : l.amountDue - a ≤ 0) :
    record_repayment db lid a rcpt phone =
      ({ db with
          loans := updateFirst (fun x => x.id == lid)
            (fun x => { x with status := .repaid, amountDue := 0 }) db.loans
          wallets := updateFirst (fun x => x.userId == l.userId)
            (fun x =>
              { x with
                  loanBalance := 0
                  currentLoanLimit := x.currentLoanLimit + l.amount })
            db.wallets
          users := updateFirst (fun x => x.id == l.userId)
            (fun x => { x with creditScore := min (x.creditScore + 50) 850 })
            db.users
          transactions := db.transactions ++ [repaymentTxn l a rcpt phone] },
        ⟨true, "Loan fully repaid! KES " ++ toString a ++ " received.",
          some (l.amountDue - a), some true⟩) := by
  unfold record_repayment
  rw [hl]
  dsimp only
  rw [if_pos hst, hw]
  dsimp only
  rw [if_pos hrem]

/-- What `record_repayment` does on a DISBURSED loan when the payment covers
strictly less than `amount_due`. -/
theorem record_repayment_partial_eq (db : DB) (lid : Nat) (a : ℚ)
    (rcpt phone : String) (l : Loan) (w : Wallet)
    (hl : db.findLoan lid = some l) (hst : l.status = .disbursed)
    (hw : db.findWallet l.userId = some w) (hrem : ¬ l.amountDue - a ≤ 0) :
    record_repayment db lid a rcpt phone =
      ({ db with
          loans := updateFirst (fun x => x.id == lid)
            (fun x => { x with amountDue := l.amountDue - a }) db.loans
          wallets := updateFirst (fun x => x.userId == l.userId)
            (fun x => { x with loanBalance := x.loanBalance - a }) db.wallets
          transactions := db.transactions ++ [repaymentTxn l a rcpt phone] },
        ⟨true,
          "Payment received: KES " ++ toString a ++ ". Remaining: KES "
            ++ toString (l.amountDue - a),
          some (l.amountDue - a), some false⟩) := by
  unfold record_repayment
  rw [hl]
  dsimp only
  rw [if_pos hst, hw]
  dsimp only
  rw [if_neg hrem]

/-! ## Claim theorems -/

/-- C2: disbursing twice performs the wallet mutation exactly once — the
first call on an APPROVED loan succeeds (balance credited by `amount`, loan
balance by `amountDue`, limit debited by `amount`, one completed
disbursement transaction appended), and the second call fails with the
invalid-transition error (`ValueError("Cannot disburse loan with status:
disbursed")` in the source, `InvalidTransitionError` in the spec taxonomy)
and returns the state unchanged. -/
theorem disburse_twice_performs_mutation_once (db : DB) (lid : Nat)
    (rc1 rc2 : Option String) (l : Loan) (w : Wallet)
    (hl : db.findLoan lid = some l) (hst : l.status = .approved)
    (hw : db.findWallet l.userId = some w) :
    (disburse_loan db lid rc1).2 = .ok { l with status := .disbursed } ∧
    (disburse_loan db lid rc1).1.findWallet l.userId = some
      { w with
          availableBalance := w.availableBalance + l.amount
          loanBalance := w.loanBalance + l.amountDue
          currentLoanLimit := w.currentLoanLimit - l.amount } ∧
    (disburse_loan db lid rc1).1.transactions
      = db.transactions ++ [disbursementTxn l rc1] ∧
    disburse_loan (disburse_loan db lid rc1).1 lid rc2
      = ((disburse_loan db lid rc1).1,
          .error (.invalidTransition "disburse" .disbursed)) := by
  have hkey := disburse_loan_approved_eq db lid rc1 l w hl hst hw
  have hl0 : db.loans.find? (fun x => x.id == lid) = some l := hl
  have hw0 : db.wallets.find? (fun x => x.userId == l.userId) = some w := hw
  have hpl := List.find?_some hl0
  have hpw := List.find?_some hw0
  have hw1 : (disburse_loan db lid rc1).1.findWallet l.userId = some
      { w with
          availableBalance := w.availableBalance + l.amount
          loanBalance := w.loanBalance + l.amountDue
          currentLoanLimit := w.currentLoanLimit - l.amount } := by
    rw [hkey]
    exact find?_updateFirst _ _ db.wallets w hw0 hpw
  have hl1 : (disburse_loan db lid rc1).1.findLoan lid
      = some { l with status := .disbursed } := by
    rw [hkey]
    exact find?_updateFirst _ _ db.loans l hl0 hpl
  refine ⟨by rw [hkey], hw1, by rw [hkey], ?_⟩
  exact disburse_loan_not_approved (disburse_loan db lid rc1).1 lid rc2
    { l with status := .disbursed } hl1 (by simp)

/-- Witness for C2 at the §8 scenario state. -/
theorem disburse_twice_performs_mutation_once_witness :
    fixtureDbApproved.findLoan 0 = some fixtureLoanApproved ∧
    fixtureLoanApproved.status = .approved ∧
    fixtureDbApproved.findWallet fixtureLoanApproved.userId = some fixtureWallet ∧
    ((disburse_loan fixtureDbApproved 0 (some "R1")).2
        = .ok { fixtureLoanApproved with status := .disbursed } ∧
      (disburse_loan fixtureDbApproved 0 (some "R1")).1.findWallet
          fixtureLoanApproved.userId = some
        { fixtureWallet with
            availableBalance := fixtureWallet.availableBalance + fixtureLoanApproved.amount
            loanBalance := fixtureWallet.loanBalance + fixtureLoanApproved.amountDue
            currentLoanLimit := fixtureWallet.currentLoanLimit - fixtureLoanApproved.amount } ∧
      (disburse_loan fixtureDbApproved 0 (some "R1")).1.transactions
        = fixtureDbApproved.transactions ++ [disbursementTxn fixtureLoanApproved (some "R1")] ∧
      disburse_loan (disburse_loan fixtureDbApproved 0 (some "R1")).1 0 (some "R2")
        = ((disburse_loan fixtureDbApproved 0 (some "R1")).1,
            .error (.invalidTransition "disburse" .disbursed))) :=
  ⟨by decide, by decide, by decide,
    disburse_twice_performs_mutation_once fixtureDbApproved 0 (some "R1")
      (some "R2") fixtureLoanApproved fixtureWallet (by decide) (by decide)
      (by decide)⟩

/-- C3: a repayment with `amountDue - amount ≤ 0` sets the loan REPAID with
`amountDue = 0`, assigns `wallet.loanBalance = 0`, adds the original
principal `loan.amount` back to `currentLoanLimit`, raises the user's credit
score to `min(creditScore + 50, 850)`, appends one completed repayment
transaction, and reports `fullyRepaid = true`. -/
theorem full_repayment_closes_loan (db : DB) (lid : Nat) (a : ℚ)
    (rcpt phone : String) (l : Loan) (w : Wallet) (u : User)
    (hl : db.findLoan lid = some l) (hst : l.status = .disbursed)
    (hw : db.findWallet l.userId = some w) (hu : db.findUser l.userId = some u)
    (hrem : l.amountDue - a ≤ 0) :
    (record_repayment db lid a rcpt phone).2.fullyRepaid = some true ∧
    (record_repayment db lid a rcpt phone).2.success = true ∧
    (record_repayment db lid a rcpt phone).1.findLoan lid
      = some { l with status := .repaid, amountDue := 0 } ∧
    (record_repayment db lid a rcpt phone).1.findWallet l.userId
      = some { w with
          loanBalance := 0
          currentLoanLimit := w.currentLoanLimit + l.amount } ∧
    (record_repayment db lid a rcpt phone).1.findUser l.userId
      = some { u with creditScore := min (u.creditScore + 50) 850 } ∧
    (record_repayment db lid a rcpt phone).1.transactions
      = db.transactions ++ [repaymentTxn l a rcpt phone] := by
  have hkey := record_repayment_full_eq db lid a rcpt phone l w hl hst hw hrem
  have hl0 : db.loans.find? (fun x => x.id == lid) = some l := hl
  have hw0 : db.wallets.find? (fun x => x.userId == l.userId) = some w := hw
  have hu0 : db.users.find? (fun x => x.id == l.userId) = some u := hu
  have hpl := List.find?_some hl0
  have hpw := List.find?_some hw0
  have hpu := List.find?_some hu0
  refine ⟨by rw [hkey], by rw [hkey], ?_, ?_, ?_, by rw [hkey]⟩
  · rw [hkey]
    exact find?_updateFirst _ _ db.loans l hl0 hpl
  · rw [hkey]
    exact find?_updateFirst _ _ db.wallets w hw0 hpw
  · rw [hkey]
    exact find?_updateFirst _ _ db.users u hu0 hpu

/-- Witness for C3: the §8 scenario's full repayment of 1150 (status REPAID,
`loanBalance = 0`, `currentLoanLimit` back to 5000, credit score 550). -/
theorem full_repayment_closes_loan_witness :
    fixtureDbDisbursed.findLoan 0 = some fixtureLoanDisbursed ∧
    fixtureLoanDisbursed.status = .disbursed ∧
    fixtureDbDisbursed.findWallet 0 = some fixtureWalletAfterDisburse ∧
    fixtureDbDisbursed.findUser 0 = some fixtureUser ∧
    fixtureLoanDisbursed.amountDue - 1150 ≤ 0 ∧
    ((record_repayment fixtureDbDisbursed 0 1150 "QGH123" "254712345678").2.fullyRepaid
        = some true ∧
      (record_repayment fixtureDbDisbursed 0 1150 "QGH123" "254712345678").2.success = true ∧
      (record_repayment fixtureDbDisbursed 0 1150 "QGH123" "254712345678").1.findLoan 0
        = some { fixtureLoanDisbursed with status := .repaid, amountDue := 0 } ∧
      (record_repayment fixtureDbDisbursed 0 1150 "QGH123" "254712345678").1.findWallet 0
        = some { fixtureWalletAfterDisburse with
            loanBalance := 0
            currentLoanLimit := fixtureWalletAfterDisburse.currentLoanLimit
              + fixtureLoanDisbursed.amount } ∧
      (record_repayment fixtureDbDisbursed 0 1150 "QGH123" "254712345678").1.findUser 0
        = some { fixtureUser with creditScore := min (fixtureUser.creditScore + 50) 850 } ∧
      (record_repayment fixtureDbDisbursed 0 1150 "QGH123" "254712345678").1.transactions
        = fixtureDbDisbursed.transactions
          ++ [repaymentTxn fixtureLoanDisbursed 1150 "QGH123" "254712345678"]) :=
  ⟨by decide, by decide, by decide, by decide, by simp [fixtureLoanDisbursed],
    full_repayment_closes_loan fixtureDbDisbursed 0 1150 "QGH123" "254712345678"
      fixtureLoanDisbursed fixtureWalletAfterDisburse fixtureUser (by decide)
      (by decide) (by decide) (by decide) (by simp [fixtureLoanDisbursed])⟩

/-- C8: a repayment strictly below `amountDue` keeps the loan DISBURSED,
sets `amountDue` to exactly the old value minus the payment, decrements
`wallet.loanBalance` by exactly the payment, and leaves
`availableBalance`, `currentLoanLimit` and the user rows unchanged. -/
theorem partial_repayment_frame (db : DB) (lid : Nat) (a : ℚ)
    (rcpt phone : String) (l : Loan) (w : Wallet)
    (hl : db.findLoan lid = some l) (hst : l.status = .disbursed)
    (hw : db.findWallet l.userId = some w) (hlt : a < l.amountDue) :
    (record_repayment db lid a rcpt phone).1.findLoan lid
      = some { l with status := .disbursed, amountDue := l.amountDue - a } ∧
    (record_repayment db lid a rcpt phone).1.findWallet l.userId
      = some { w with loanBalance := w.loanBalance - a } ∧
    (record_repayment db lid a rcpt phone).1.users = db.users ∧
    (record_repayment db lid a rcpt phone).2.fullyRepaid = some false := by
  have hrem : ¬ l.amountDue - a ≤ 0 := by
    intro hc
    have := sub_pos.mpr hlt
    linarith
  have hkey := record_repayment_partial_eq db lid a rcpt phone l w hl hst hw hrem
  have hl0 : db.loans.find? (fun x => x.id == lid) = some l := hl
  have hw0 : db.wallets.find? (fun x => x.userId == l.userId) = some w := hw
  have hpl := List.find?_some hl0
  have hpw := List.find?_some hw0
  refine ⟨?_, ?_, by rw [hkey], by rw [hkey]⟩
  · rw [hkey]
    have hfind := find?_updateFirst (fun x : Loan => x.id == lid)
      (fun x => { x with amountDue := l.amountDue - a }) db.loans l hl0 hpl
    have hrec : ({ l with amountDue := l.amountDue - a } : Loan)
        = { l with status := .disbursed, amountDue := l.amountDue - a } := by
      cases l
      simp_all
    rw [← hrec]
    exact hfind
  · rw [hkey]
    exact find?_updateFirst _ _ db.wallets w hw0 hpw

/-- Witness for C8: the §8 scenario's partial repayment of 500 (amount due
becomes 650, loan balance drops by 500, status stays DISBURSED). -/
theorem partial_repayment_frame_witness :
    fixtureDbDisbursed.findLoan 0 = some fixtureLoanDisbursed ∧
    fixtureLoanDisbursed.status = .disbursed ∧
    fixtureDbDisbursed.findWallet 0 = some fixtureWalletAfterDisburse ∧
    (500 : ℚ) < fixtureLoanDisbursed.amountDue ∧
    ((record_repayment fixtureDbDisbursed 0 500 "QGH124" "254712345678").1.findLoan 0
        = some { fixtureLoanDisbursed with
            status := .disbursed
            amountDue := fixtureLoanDisbursed.amountDue - 500 } ∧
      (record_repayment fixtureDbDisbursed 0 500 "QGH124" "254712345678").1.findWallet 0
        = some { fixtureWalletAfterDisburse with
            loanBalance := fixtureWalletAfterDisburse.loanBalance - 500 } ∧
      (record_repayment fixtureDbDisbursed 0 500 "QGH124" "254712345678").1.users
        = fixtureDbDisbursed.users ∧
      (record_repayment fixtureDbDisbursed 0 500 "QGH124" "254712345678").2.fullyRepaid
        = some false) :=
  ⟨by decide, by decide, by decide, by decide,
    partial_repayment_frame fixtureDbDisbursed 0 500 "QGH124" "254712345678"
      fixtureLoanDisbursed fixtureWalletAfterDisburse (by decide) (by decide)
      (by decide) (by decide)⟩

/-- C10: a repayment strictly above `amountDue` takes the full-repayment
branch (`fullyRepaid = true`) and returns `remaining` as the negative
difference `amountDue - amount`, not clamped to zero; the excess is not
credited to `availableBalance` and appears only as the repayment
transaction's `amount`. -/
theorem overpayment_negative_remaining (db : DB) (lid : Nat) (a : ℚ)
    (rcpt phone : String) (l : Loan) (w : Wallet)
    (hl : db.findLoan lid = some l) (hst : l.status = .disbursed)
    (hw : db.findWallet l.userId = some w) (hgt : l.amountDue < a) :
    (record_repayment db lid a rcpt phone).2.fullyRepaid = some true ∧
    (record_repayment db lid a rcpt phone).2.remaining = some (l.amountDue - a) ∧
    l.amountDue - a < 0 ∧
    (record_repayment db lid a rcpt phone).1.findWallet l.userId
      = some { w with
          loanBalance := 0
          currentLoanLimit := w.currentLoanLimit + l.amount } ∧
    (record_repayment db lid a rcpt phone).1.transactions
      = db.transactions ++ [repaymentTxn l a rcpt phone] := by
  have hneg : l.amountDue - a < 0 := sub_neg.mpr hgt
  have hkey := record_repayment_full_eq db lid a rcpt phone l w hl hst hw
    (le_of_lt hneg)
  have hw0 : db.wallets.find? (fun x => x.userId == l.userId) = some w := hw
  have hpw := List.find?_some hw0
  refine ⟨by rw [hkey], by rw [hkey], hneg, ?_, by rw [hkey]⟩
  rw [hkey]
  exact find?_updateFirst _ _ db.wallets w hw0 hpw

/-- Witness for C10: overpaying 2000 against an `amountDue` of 1150 reports
`remaining = -850` and `fullyRepaid = true`. -/
theorem overpayment_negative_remaining_witness :
    fixtureDbDisbursed.findLoan 0 = some fixtureLoanDisbursed ∧
    fixtureLoanDisbursed.status = .disbursed ∧
    fixtureDbDisbursed.findWallet 0 = some fixtureWalletAfterDisburse ∧
    fixtureLoanDisbursed.amountDue < (2000 : ℚ) ∧
    ((record_repayment fixtureDbDisbursed 0 2000 "QGH125" "254712345678").2.fullyRepaid
        = some true ∧
      (record_repayment fixtureDbDisbursed 0 2000 "QGH125" "254712345678").2.remaining
        = some (fixtureLoanDisbursed.amountDue - 2000) ∧
      fixtureLoanDisbursed.amountDue - 2000 < 0 ∧
      (record_repayment fixtureDbDisbursed 0 2000 "QGH125" "254712345678").1.findWallet 0
        = some { fixtureWalletAfterDisburse with
            loanBalance := 0
            currentLoanLimit := fixtureWalletAfterDisburse.currentLoanLimit
              + fixtureLoanDisbursed.amount } ∧
      (record_repayment fixtureDbDisbursed 0 2000 "QGH125" "254712345678").1.transactions
        = fixtureDbDisbursed.transactions
          ++ [repaymentTxn fixtureLoanDisbursed 2000 "QGH125" "254712345678"]) :=
  ⟨by decide, by decide, by decide, by decide,
    overpayment_negative_remaining fixtureDbDisbursed 0 2000 "QGH125" "254712345678"
      fixtureLoanDisbursed fixtureWalletAfterDisburse (by decide) (by decide)
      (by decide) (by decide)⟩

/-- C7: when user and wallet exist, eligibility is decided by the first
failing rule in the fixed source order — amount ≤ 0, amount above
`currentLoanLimit`, credit score below 300, existing active loan (with the
verbatim reason "You have an active loan") — and any ineligible verdict
makes `create_loan_application` raise the ineligibility error and return
the state unchanged (no loan row, no transaction row). -/
theorem eligibility_rule_order (db : DB) (uid : Nat) (a : ℚ) (t : Nat)
    (p : String) (u : User) (w : Wallet)
    (hu : db.findUser uid = some u) (hw : db.findWallet uid = some w) :
    check_eligibility db uid a =
      (if a ≤ 0 then .ineligible "Invalid amount"
       else if w.currentLoanLimit < a then
         .ineligible ("Amount exceeds limit of KES " ++ toString w.currentLoanLimit)
       else if u.creditScore < 300 then .ineligible "Low credit score"
       else if 0 < activeLoanCount db uid then
         .ineligible "You have an active loan"
       else .eligible w.currentLoanLimit) ∧
    ∀ r, check_eligibility db uid a = .ineligible r →
      create_loan_application db uid a t p = (db, .error (.ineligible r)) := by
  constructor
  · unfold check_eligibility
    rw [hu, hw]
  · intro r hr
    unfold create_loan_application
    rw [hr]

/-- Witness for C7: with the fixture's DISBURSED loan outstanding, a second
application for 100 fails with exactly "You have an active loan" and leaves
the state unchanged. -/
theorem eligibility_rule_order_witness :
    fixtureDbDisbursed.findUser 0 = some fixtureUser ∧
    fixtureDbDisbursed.findWallet 0 = some fixtureWalletAfterDisburse ∧
    check_eligibility fixtureDbDisbursed 0 100
      = .ineligible "You have an active loan" ∧
    create_loan_application fixtureDbDisbursed 0 100 30 "General"
      = (fixtureDbDisbursed, .error (.ineligible "You have an active loan")) :=
  ⟨by decide, by decide, by decide,
    (eligibility_rule_order fixtureDbDisbursed 0 100 30 "General" fixtureUser
      fixtureWalletAfterDisburse (by decide) (by decide)).2
      "You have an active loan" (by decide)⟩

/-- C9: first session-protocol contact with an unknown phone number creates
the user (credit score 300, exactly the eligibility threshold; active) and
its wallet (balances 0, total limit 50000, current limit 5000) together,
before any menu handling: `process_request` is exactly the menu dispatch
run on the extended state. -/
theorem first_contact_creates_user_with_defaults (db : DB)
    (phone text : String) (gw : StkResult)
    (h : db.findUserByPhone phone = none) :
    (get_or_create_user db phone).2
      = { id := db.nextUserId, phoneNumber := phone, creditScore := 300,
          isActive := true } ∧
    (get_or_create_user db phone).1
      = { db with
          users := db.users
            ++ [{ id := db.nextUserId, phoneNumber := phone,
                  creditScore := 300, isActive := true }]
          wallets := db.wallets
            ++ [{ userId := db.nextUserId, availableBalance := 0,
                  loanBalance := 0, totalLoanLimit := 50000,
                  currentLoanLimit := 5000 }]
          nextUserId := db.nextUserId + 1 } ∧
    process_request db phone text gw
      = ussd_dispatch (get_or_create_user db phone).1
          (get_or_create_user db phone).2 text.trim gw := by
  unfold process_request get_or_create_user newUser defaultWallet
  rw [h]
  exact ⟨rfl, rfl, rfl⟩

/-- Witness for C9 on the empty database. -/
theorem first_contact_creates_user_with_defaults_witness :
    DB.init.findUserByPhone "254700000000" = none ∧
    ((get_or_create_user DB.init "254700000000").2
        = { id := DB.init.nextUserId, phoneNumber := "254700000000",
            creditScore := 300, isActive := true } ∧
      (get_or_create_user DB.init "254700000000").1
        = { DB.init with
            users := DB.init.users
              ++ [{ id := DB.init.nextUserId, phoneNumber := "254700000000",
                    creditScore := 300, isActive := true }]
            wallets := DB.init.wallets
              ++ [{ userId := DB.init.nextUserId, availableBalance := 0,
                    loanBalance := 0, totalLoanLimit := 50000,
                    currentLoanLimit := 5000 }]
            nextUserId := DB.init.nextUserId + 1 } ∧
      process_request DB.init "254700000000" "5" (StkResult.failed "down")
        = ussd_dispatch (get_or_create_user DB.init "254700000000").1
            (get_or_create_user DB.init "254700000000").2 ("5" : String).trim
            (StkResult.failed "down")) :=
  ⟨by decide,
    first_contact_creates_user_with_defaults DB.init "254700000000" "5"
      (StkResult.failed "down") (by decide)⟩

/-- C6: the payment-callback endpoint acknowledges success (result code 0)
to the external gateway on every input — successful payload, gateway
failure, malformed JSON body (`payload = none`), or the internal
`AttributeError` paths. -/
theorem callback_endpoint_always_acknowledges (db : DB)
    (payload : Option StkCallback) :
    (handle_mpesa_callback db payload).2.resultCode = 0 := by
  cases payload with
  | none => rfl
  | some cb =>
    unfold handle_mpesa_callback
    have h2 : (handle_callback db cb).2 = none := by
      unfold handle_callback
      cases handle_callback_inner db cb <;> rfl
    dsimp only
    rw [h2]

/-- C5 counterexample: a gateway-failure callback correlated to a pending
transaction leaves that transaction `pending` with no failure reason
recorded — the handler does not mark it `failed` as the claim states. -/
theorem failed_callback_counterexample :
    (handle_callback fixtureDbPendingTxn cbFailed).1 = fixtureDbPendingTxn ∧
    (handle_callback fixtureDbPendingTxn cbFailed).1.transactions.find?
        (fun t => t.checkoutRequestId == some "ws_CO_1")
      = some fixturePendingTxn ∧
    fixturePendingTxn.status = "pending" ∧
    fixturePendingTxn.errorMessage = none := by
  decide

/-- C5 amended: on a nonzero (or missing) result code the callback handler
only logs the failure and performs no mutation at all — no transaction is
marked failed, and wallets and loans are untouched. -/
theorem failed_callback_no_mutation (db : DB) (cb : StkCallback)
    (h : ¬ cb.resultCode = some 0) :
    handle_callback db cb = (db, none) := by
  unfold handle_callback handle_callback_inner
  rw [if_neg h]

/-- Witness for the amended C5. -/
theorem failed_callback_no_mutation_witness :
    ¬ cbFailed.resultCode = some 0 ∧
    handle_callback fixtureDbPendingTxn cbFailed = (fixtureDbPendingTxn, none) :=
  ⟨by decide, failed_callback_no_mutation fixtureDbPendingTxn cbFailed (by decide)⟩

/-- C1 (code bug exhibit): on a well-formed successful payload whose payer
phone resolves to an existing user, `handle_callback`'s body reaches the
call to `LoanService.process_loan_repayment` — a method that does not exist
— and dies on `AttributeError`, swallowed by the blanket `except`.
Delivering the identical payload twice therefore produces zero repayment
transactions and zero wallet mutations (not the claim's exactly one), and
no lookup by `checkoutRequestId` ever happens. -/
theorem successful_callback_replay_no_repayment :
    handle_callback_inner fixtureDbDisbursed cbSuccess
      = .error (.attributeError
          "LoanService object has no attribute process_loan_repayment") ∧
    (handle_callback (handle_callback fixtureDbDisbursed cbSuccess).1 cbSuccess).1
      = fixtureDbDisbursed ∧
    ((handle_callback (handle_callback fixtureDbDisbursed cbSuccess).1
        cbSuccess).1.transactions.filter (fun t => t.type == "repayment")).length
      = 0 ∧
    (handle_callback (handle_callback fixtureDbDisbursed cbSuccess).1
        cbSuccess).1.findWallet 0 = some fixtureWalletAfterDisburse := by
  refine ⟨rfl, by decide, by decide, by decide⟩

end UssdWallet
